import Mathlib

/-!
Verification development for the OrgPulse CLI fetch pipeline.

The definitions below are a shallow embedding of the JavaScript source:

* `GitHubAPIWithRetries` embeds the API client of `src/commands/fetch.js`
  (error classification, exponential backoff, rate-limit handling, the
  retry loop of `requestWithRetry`/`graphqlWithRetry`).
* `GitHubAPI` embeds the second, independent client in
  `src/github/api.js` (same structure, slightly different
  rate-limit detection).
* `fetchWithRateLimit` embeds `src/utils/request.js`.
* `CheckpointManager` embeds `src/utils/checkpoint.js`; the
  `fetchRepositoriesInit` record captures how `fetchRepositories` in
  `fetch.js` initialises its pagination state from a loaded checkpoint.
* `BatchProcessor.processItems` embeds the batch scheduler of `fetch.js`.
* `fetchRepoIssuesGo` embeds the per-repository issue pagination loop.
* `upsertMany`/`applyRepoPage`/`applyIssuePage` embed the MongoDB
  `bulkWrite` upserts; the store is modelled as a keyed map, justified by
  the unique indexes on (org, name) and (repo, number) declared in
  `src/db/models`.

Machine conventions: timestamps are epoch milliseconds as `Int`
(JavaScript `Date.now()` / `getTime()`), header values keep their source
representation (the `x-ratelimit-remaining` header is compared as the
string "0" in both clients), and asynchronous effects are made explicit:
a scripted list of per-attempt outcomes stands for the sequence of
network responses, and each run returns the list of sleep durations the
code would have requested.
-/

namespace OrgPulse

/-- Error object thrown by the HTTP layer: an optional HTTP status
(`none` models a network-level failure with no response), and the
optional `x-ratelimit-remaining` / `x-ratelimit-reset` response headers
(`none` models an absent header; `reset` is epoch seconds). -/
structure APIError where
  status : Option Nat
  ratelimitRemaining : Option String
  ratelimitReset : Option Nat
  deriving Repr, DecidableEq

/-- Classification of a failed request, per the spec's taxonomy. -/
inductive ErrorClass where
  | rateLimited
  | retryableTransient
  | fatal
  deriving Repr, DecidableEq

/-- Retry budget constant `MAX_RETRIES = 3` of `fetch.js`. -/
def MAX_RETRIES : Nat := 3

namespace GitHubAPIWithRetries

/-- Embeds `calculateBackoffDelay` of `fetch.js`:
`Math.pow(3, retryCount) * 1000`. -/
def calculateBackoffDelay (retryCount : Nat) : Nat :=
  3 ^ retryCount * 1000

/-- Embeds `isRateLimited` of `fetch.js`: status 403 or 429 and the
`x-ratelimit-remaining` header equal to the string "0". -/
def isRateLimited (e : APIError) : Bool :=
  (e.status == some 403 || e.status == some 429) &&
    e.ratelimitRemaining == some "0"

/-- Embeds `isRetryableError` of `fetch.js`: no status (network error),
5xx, or 429. -/
def isRetryableError (e : APIError) : Bool :=
  match e.status with
  | none => true
  | some s => decide (500 ≤ s) || s == 502 || s == 503 || s == 504 || s == 429

/-- Embeds `handleRateLimit` of `fetch.js`, returning the sleep duration
in ms: no reset header sleeps a fixed 60s; otherwise the code computes
`wait = reset * 1000 - Date.now()` and sleeps `wait + 1000` only when
`wait > 0` (a non-positive wait sleeps nothing). -/
def handleRateLimit (e : APIError) (now : Int) : Int :=
  match e.ratelimitReset with
  | none => 60000
  | some reset =>
    let wait : Int := (reset : Int) * 1000 - now
    if 0 < wait then wait + 1000 else 0

/-- Error classification as performed by the branch order of
`requestWithRetry`/`graphqlWithRetry` in `fetch.js`: the rate-limit test
runs first, then the retryable test, and everything else is surfaced
without retry. -/
def classify (e : APIError) : ErrorClass :=
  if isRateLimited e then ErrorClass.rateLimited
  else if isRetryableError e then ErrorClass.retryableTransient
  else ErrorClass.fatal

end GitHubAPIWithRetries

namespace GitHubAPI

/-- Embeds `calculateBackoffDelay` of `src/github/api.js` (identical to
the `fetch.js` one). -/
def calculateBackoffDelay (retryCount : Nat) : Nat :=
  3 ^ retryCount * 1000

/-- Embeds `isRateLimited` of `src/github/api.js`: this client tests
status 403 only (no 429), with the `x-ratelimit-remaining` header equal
to the string "0". -/
def isRateLimited (e : APIError) : Bool :=
  e.status == some 403 && e.ratelimitRemaining == some "0"

/-- Embeds `isRetryableError` of `src/github/api.js` (identical to the
`fetch.js` one). -/
def isRetryableError (e : APIError) : Bool :=
  match e.status with
  | none => true
  | some s => decide (500 ≤ s) || s == 502 || s == 503 || s == 504 || s == 429

/-- Embeds `handleRateLimit` of `src/github/api.js` (identical to the
`fetch.js` one). -/
def handleRateLimit (e : APIError) (now : Int) : Int :=
  match e.ratelimitReset with
  | none => 60000
  | some reset =>
    let wait : Int := (reset : Int) * 1000 - now
    if 0 < wait then wait + 1000 else 0

/-- Error classification as performed by the branch order of
`makeRequestWithRetry` in `src/github/api.js`. -/
def classify (e : APIError) : ErrorClass :=
  if isRateLimited e then ErrorClass.rateLimited
  else if isRetryableError e then ErrorClass.retryableTransient
  else ErrorClass.fatal

end GitHubAPI

/-- One scripted outcome of a network attempt: a success carrying the
parsed rate-limit headers, or a thrown error. -/
inductive Outcome where
  | ok (remaining reset : Option Nat)
  | err (e : APIError)
  deriving Repr, DecidableEq

deriving instance DecidableEq for Except

/-- Observable trace of one logical request: the final result (`none`
when the script ran out of outcomes while the loop wanted another
attempt), the sleep durations requested in order, and the number of
attempts consumed. -/
structure RunResult where
  result : Option (Except APIError Unit)
  sleeps : List Int
  attempts : Nat
  deriving Repr, DecidableEq

/-- Core of the retry-by-reinvocation loop shared (textually) by
`requestWithRetry`/`graphqlWithRetry` in `fetch.js` and
`makeRequestWithRetry` in `src/github/api.js`, parameterised by the
client's classification predicates. On error: a rate-limited error
sleeps per `hRL` and re-invokes with the SAME retry counter; a retryable
error with `retry < maxRetries` sleeps the backoff delay and re-invokes
with `retry + 1`; anything else is thrown. -/
def retryLoop (isRL isRetry : APIError → Bool) (hRL : APIError → Int)
    (maxRetries : Nat) : List Outcome → Nat → RunResult
  | [], _ => { result := none, sleeps := [], attempts := 0 }
  | Outcome.ok _ _ :: _, _ =>
    { result := some (Except.ok ()), sleeps := [], attempts := 1 }
  | Outcome.err e :: rest, retry =>
    if isRL e then
      let r := retryLoop isRL isRetry hRL maxRetries rest retry
      { result := r.result, sleeps := hRL e :: r.sleeps,
        attempts := r.attempts + 1 }
    else if isRetry e && decide (retry < maxRetries) then
      let r := retryLoop isRL isRetry hRL maxRetries rest (retry + 1)
      { result := r.result,
        sleeps := (GitHubAPIWithRetries.calculateBackoffDelay retry : Int) :: r.sleeps,
        attempts := r.attempts + 1 }
    else { result := some (Except.error e), sleeps := [], attempts := 1 }

/-- Embeds `requestWithRetry` of `fetch.js` run against a script of
attempt outcomes, starting at retry counter `retry`. -/
def GitHubAPIWithRetries.requestWithRetry (now : Int) (script : List Outcome)
    (retry : Nat) : RunResult :=
  retryLoop GitHubAPIWithRetries.isRateLimited GitHubAPIWithRetries.isRetryableError
    (fun e => GitHubAPIWithRetries.handleRateLimit e now) MAX_RETRIES script retry

/-- Embeds `makeRequestWithRetry` of `src/github/api.js` run against a
script of attempt outcomes. -/
def GitHubAPI.makeRequestWithRetry (now : Int) (script : List Outcome)
    (retry : Nat) : RunResult :=
  retryLoop GitHubAPI.isRateLimited GitHubAPI.isRetryableError
    (fun e => GitHubAPI.handleRateLimit e now) 3 script retry

/-- Embeds the loop body of `fetchWithRateLimit` in
`src/utils/request.js`: a for-loop over `attempt = 0 .. retries`. On
success it additionally sleeps `reset * 1000 - now + 1000` when the
parsed `x-ratelimit-remaining` equals 0 (an absent reset header parses
to NaN, which `setTimeout` treats as 0). On error at `attempt = retries`
the error is thrown; otherwise it sleeps `3 ^ attempt * 1000` and goes
round again. -/
def fetchWithRateLimitGo (now : Int) (retries : Nat) :
    List Outcome → Nat → RunResult
  | [], _ => { result := none, sleeps := [], attempts := 0 }
  | Outcome.ok remaining reset :: _, _ =>
    let sleeps : List Int :=
      if remaining = some 0 then
        [match reset with
         | some t => (t : Int) * 1000 - now + 1000
         | none => 0]
      else []
    { result := some (Except.ok ()), sleeps := sleeps, attempts := 1 }
  | Outcome.err e :: rest, attempt =>
    if attempt = retries then
      { result := some (Except.error e), sleeps := [], attempts := 1 }
    else
      let r := fetchWithRateLimitGo now retries rest (attempt + 1)
      { result := r.result, sleeps := ((3 : Int) ^ attempt * 1000) :: r.sleeps,
        attempts := r.attempts + 1 }

/-- Embeds `fetchWithRateLimit` of `src/utils/request.js` with its
default budget `retries = 3`, starting at attempt 0. -/
def fetchWithRateLimit (now : Int) (script : List Outcome) : RunResult :=
  fetchWithRateLimitGo now 3 script 0

/-- Checkpoint record as read from `checkpoint.json` by `loadCheckpoint`
in `fetch.js`. Absent JSON fields are `none`; the empty object returned
for a missing or unparsable file has every field `none`.
`timestamp` is epoch milliseconds. -/
structure Checkpoint where
  org : Option String
  reposEndCursor : Option String
  reposCount : Option Nat
  timestamp : Option Int
  deriving Repr, DecidableEq

/-- Embeds `shouldResumeFromCheckpoint` of `src/utils/checkpoint.js`:
false for a missing checkpoint or one whose org differs from the
requested org; otherwise true exactly when
`checkpoint.timestamp > Date.now() - 3600000` (a missing timestamp
compares false in JavaScript). -/
def CheckpointManager.shouldResumeFromCheckpoint (checkpoint : Option Checkpoint)
    (org : String) (now : Int) : Bool :=
  match checkpoint with
  | none => false
  | some cp =>
    if cp.org ≠ some org then false
    else
      match cp.timestamp with
      | none => false
      | some t => decide (now - 3600000 < t)

/-- Pagination state that `fetchRepositories` in `fetch.js` builds from
the loaded checkpoint before its page loop starts. -/
structure RepoFetchInit where
  endCursor : Option String
  fetched : Nat
  resumeLogged : Bool
  deriving Repr, DecidableEq

/-- Embeds lines 253-260 of `fetch.js` (`fetchRepositories`): the
cursor is `cp.repos?.endCursor || null` and the running count is
`cp.repos?.count || 0`, taken from the checkpoint UNCONDITIONALLY; the
organization test `cp.org === org && endCursor` guards only the
"Resuming from cursor" log line. -/
def fetchRepositoriesInit (org : String) (cp : Checkpoint) : RepoFetchInit :=
  { endCursor := cp.reposEndCursor,
    fetched := cp.reposCount.getD 0,
    resumeLogged := cp.org == some org && cp.reposEndCursor.isSome }

/-- Environment of one `handleFetchAction` run in `fetch.js`: whether
`MONGO_URI` is set, whether `connectToMongo` succeeds, the outcomes of
`fetchRepositories` and `fetchIssues` (an `Except.error` is an
exception propagating out of the call), and whether the checkpoint file
exists at the point control leaves those calls. -/
structure FetchEnv where
  mongoUriPresent : Bool
  connectOk : Bool
  repoFetch : Except String Nat
  issueFetch : Except String Nat
  checkpointExists : Bool
  deriving Repr, DecidableEq

/-- Observable outcome of `handleFetchAction`: whether the guarded
`fs.unlinkSync(CHECKPOINT_FILE)` ran, whether the checkpoint file exists
afterwards, and the process exit code. -/
structure FetchOutcome where
  checkpointCleared : Bool
  checkpointAfter : Bool
  exitCode : Nat
  deriving Repr, DecidableEq

/-- Embeds `handleFetchAction` of `fetch.js`: any exception from the
`try` body (missing `MONGO_URI`, connection failure, or a failure
surfaced by `fetchRepositories`/`fetchIssues`) jumps to the catch block,
which leaves the checkpoint file untouched and sets `process.exitCode`
to 1; only the fall-through success path deletes the checkpoint file
(guarded by an existence test) and exits 0. -/
def handleFetchAction (env : FetchEnv) : FetchOutcome :=
  if env.mongoUriPresent = false then
    { checkpointCleared := false, checkpointAfter := env.checkpointExists, exitCode := 1 }
  else if env.connectOk = false then
    { checkpointCleared := false, checkpointAfter := env.checkpointExists, exitCode := 1 }
  else
    match env.repoFetch with
    | Except.error _ =>
      { checkpointCleared := false, checkpointAfter := env.checkpointExists, exitCode := 1 }
    | Except.ok _ =>
      match env.issueFetch with
      | Except.error _ =>
        { checkpointCleared := false, checkpointAfter := env.checkpointExists, exitCode := 1 }
      | Except.ok _ =>
        { checkpointCleared := env.checkpointExists, checkpointAfter := false, exitCode := 0 }

/-- Whether the whole run completes with no surfaced error (checkpoint
deletion is reached in `handleFetchAction`). -/
def runSucceeded (env : FetchEnv) : Bool :=
  env.mongoUriPresent && env.connectOk &&
    env.repoFetch.toBool && env.issueFetch.toBool

/-- GraphQL repository node as consumed by `fetchRepositories` in
`fetch.js` (fields that feed the upsert document; timestamps are epoch
milliseconds, topics already projected to their names). -/
structure RepoNode where
  name : String
  description : Option String
  topics : List String
  primaryLanguage : Option String
  stargazerCount : Nat
  forkCount : Nat
  openIssuesTotal : Nat
  licenseName : Option String
  pushedAt : Int
  isPrivate : Bool
  isArchived : Bool
  isFork : Bool
  createdAt : Int
  updatedAt : Int
  defaultBranchName : Option String
  deriving Repr, DecidableEq

/-- Stored repository document: exactly the fields `$set` writes in the
`repos.bulkWrite` of `fetchRepositories`. -/
structure RepoDoc where
  org : String
  name : String
  description : Option String
  topics : List String
  language : Option String
  stars : Nat
  forks : Nat
  openIssues : Nat
  license : Option String
  pushedAt : Int
  isPrivate : Bool
  isArchived : Bool
  isFork : Bool
  createdAt : Int
  updatedAt : Int
  defaultBranch : Option String
  deriving Repr, DecidableEq

/-- Document built by the `$set` clause of the repository upsert. -/
def repoDocOf (org : String) (r : RepoNode) : RepoDoc :=
  { org := org, name := r.name, description := r.description,
    topics := r.topics, language := r.primaryLanguage,
    stars := r.stargazerCount, forks := r.forkCount,
    openIssues := r.openIssuesTotal, license := r.licenseName,
    pushedAt := r.pushedAt, isPrivate := r.isPrivate,
    isArchived := r.isArchived, isFork := r.isFork,
    createdAt := r.createdAt, updatedAt := r.updatedAt,
    defaultBranch := r.defaultBranchName }

/-- GraphQL issue node as consumed by `fetchRepoIssues` in `fetch.js`.
`createdAt` is epoch milliseconds (it is both stored and compared
against the `--since` date). -/
structure IssueNode where
  number : Nat
  title : String
  state : String
  createdAt : Int
  updatedAt : Int
  closedAt : Option Int
  authorLogin : Option String
  labels : List String
  deriving Repr, DecidableEq

/-- Stored issue document: exactly the fields `$set` writes in the
`issues.bulkWrite` of `fetchRepoIssues`. -/
structure IssueDoc where
  repo : String
  number : Nat
  title : String
  state : String
  createdAt : Int
  updatedAt : Int
  closedAt : Option Int
  author : Option String
  labels : List String
  deriving Repr, DecidableEq

/-- Document built by the `$set` clause of the issue upsert
(`state` lower-cased as in the source). -/
def issueDocOf (repoId : String) (i : IssueNode) : IssueDoc :=
  { repo := repoId, number := i.number, title := i.title,
    state := i.state.toLower, createdAt := i.createdAt,
    updatedAt := i.updatedAt, closedAt := i.closedAt,
    author := i.authorLogin, labels := i.labels }

/-- One `updateOne ... upsert: true` against a collection with a unique
index on the key: the document at the key becomes the `$set` document
(every stored field is in the `$set` clause, so merge and replace
coincide); other keys are untouched. -/
def upsertOne {κ δ : Type} [DecidableEq κ] (k : κ) (d : δ)
    (s : κ → Option δ) : κ → Option δ :=
  fun k2 => if k2 = k then some d else s k2

/-- A `bulkWrite` of per-item upserts, applied in page order, keyed and
valued by the given projections. -/
def upsertMany {α κ δ : Type} [DecidableEq κ] (key : α → κ) (doc : α → δ)
    (s : κ → Option δ) (page : List α) : κ → Option δ :=
  page.foldl (fun st r => upsertOne (key r) (doc r) st) s

/-- Embeds the `repos.bulkWrite` call of `fetchRepositories`: filter
`(org, name)`, document the `$set` clause. -/
def applyRepoPage (org : String) (s : String × String → Option RepoDoc)
    (page : List RepoNode) : String × String → Option RepoDoc :=
  upsertMany (fun r => (org, r.name)) (repoDocOf org) s page

/-- Embeds the `issues.bulkWrite` call of `fetchRepoIssues`: filter
`(repo, number)`, document the `$set` clause. -/
def applyIssuePage (repoId : String) (s : String × Nat → Option IssueDoc)
    (page : List IssueNode) : String × Nat → Option IssueDoc :=
  upsertMany (fun i => (repoId, i.number)) (issueDocOf repoId) s page

/-- Structural worker for `chunks`: the fuel is an upper bound on the
list length, so the middle arm is unreachable from `chunks` itself. -/
def chunksGo {α : Type} (bsz : Nat) : Nat → List α → List (List α)
  | _, [] => []
  | 0, l => [l]
  | fuel + 1, a :: rest =>
    (a :: rest.take (bsz - 1)) :: chunksGo bsz fuel (rest.drop (bsz - 1))

/-- Consecutive slices `items.slice(i, i + bsz)` taken by the batch loop
of `BatchProcessor.processItems` (meaningful for `0 < bsz`, the only
case the source runs: the constructor default is 5 and `fetchIssues`
passes `Math.min(5, repos.length)` with a non-empty list). -/
def chunks {α : Type} (bsz : Nat) (l : List α) : List (List α) :=
  chunksGo bsz l.length l

/-- The `Promise.allSettled` join over one batch: every item settles
independently to the pair of the item and its own outcome; no item's
failure removes or cancels a sibling. -/
def settleBatch {α ε β : Type} (f : α → Except ε β) (batch : List α) :
    List (α × Except ε β) :=
  batch.map (fun item => (item, f item))

/-- Fulfilled settlements, in settlement order, as pushed onto
`this.results`. -/
def okSettles {α ε β : Type} (settled : List (α × Except ε β)) :
    List (α × β) :=
  settled.filterMap (fun p =>
    match p.2 with
    | Except.ok v => some (p.1, v)
    | Except.error _ => none)

/-- Rejected settlements, in settlement order, as pushed onto
`this.errors`. -/
def errSettles {α ε β : Type} (settled : List (α × Except ε β)) :
    List (α × ε) :=
  settled.filterMap (fun p =>
    match p.2 with
    | Except.ok _ => none
    | Except.error e => some (p.1, e))

/-- Aggregate returned by `BatchProcessor.processItems`: the accumulated
result and error lists and their counts. -/
structure BatchOutcome (α ε β : Type) where
  results : List (α × β)
  errors : List (α × ε)
  successCount : Nat
  errorCount : Nat
  deriving Repr, DecidableEq

/-- Embeds `BatchProcessor.processItems` of `fetch.js`: the item list is
walked in fixed-size batches; each batch is settled in full
(`Promise.allSettled`), fulfilled outcomes are appended to
`this.results` and rejected ones to `this.errors` in order, and the
return value carries both lists and their lengths as
`successCount`/`errorCount`. Each item's outcome is given by the pure
per-item function `f`. -/
def BatchProcessor.processItems {α ε β : Type} (bsz : Nat)
    (f : α → Except ε β) (items : List α) : BatchOutcome α ε β :=
  let settledAll :=
    (chunks bsz items).foldl (fun acc batch => acc ++ settleBatch f batch) []
  { results := okSettles settledAll,
    errors := errSettles settledAll,
    successCount := (okSettles settledAll).length,
    errorCount := (errSettles settledAll).length }

/-- One GraphQL response page of `fetchRepoIssues`: whether
`res.repository` was non-null, the raw issue nodes, and the
`pageInfo` fields. -/
structure IssuePage where
  found : Bool
  nodes : List IssueNode
  hasNextPage : Bool
  endCursor : Option String
  deriving Repr, DecidableEq

/-- The `--since` filter of `fetchRepoIssues`: keep issues with
`new Date(i.createdAt) >= new Date(since)`; no filter keeps the page
unchanged. -/
def filterSince (since : Option Int) (nodes : List IssueNode) :
    List IssueNode :=
  match since with
  | none => nodes
  | some s => nodes.filter (fun i => decide (s ≤ i.createdAt))

/-- Observable summary of one `fetchRepoIssues` run: the final running
count, the number of pages actually requested, whether the
"Max pages reached" message was logged, and the returned count (`none`
only when the scripted page list ran out while the loop wanted another
page). -/
structure IssueRun where
  fetched : Nat
  pagesRequested : Nat
  capLogged : Bool
  result : Option Nat
  deriving Repr, DecidableEq

/-- Post-loop epilogue of `fetchRepoIssues`: the warning
`Max pages (5) reached` is logged exactly when `page >= maxPages` and
`hasNextPage` still holds, and the accumulated count is returned. -/
def issueRunExit (fetched page maxPages : Nat) (hasNext : Bool) : IssueRun :=
  { fetched := fetched, pagesRequested := 0,
    capLogged := decide (maxPages ≤ page) && hasNext,
    result := some fetched }

/-- Embeds the `while (hasNextPage && page < maxPages)` loop of
`fetchRepoIssues` in `fetch.js`, driven by a script of page responses.
Each iteration increments `page`, requests one page, breaks when the
repository is inaccessible (`!res.repository`), filters by `since`,
adds the filtered length to `fetched`, recomputes
`hasNextPage = pageInfo.hasNextPage && issues.length > 0`, and breaks
when the filtered page is empty or when a `since` filter is active and
the filtered page has fewer than 30 items; every exit goes through the
epilogue `issueRunExit` with the state at that point. -/
def fetchRepoIssuesGo (since : Option Int) (maxPages : Nat) :
    List IssuePage → Nat → Nat → Bool → IssueRun
  | script, page, fetched, hasNext =>
    if hasNext && decide (page < maxPages) then
      match script with
      | [] => { fetched := fetched, pagesRequested := 0,
                capLogged := false, result := none }
      | p :: rest =>
        if p.found = false then
          let r := issueRunExit fetched (page + 1) maxPages hasNext
          { r with pagesRequested := 1 }
        else
          let issues := filterSince since p.nodes
          let fetched1 := fetched + issues.length
          let hasNext1 := p.hasNextPage && decide (0 < issues.length)
          if issues.length = 0 ∨ (since.isSome ∧ issues.length < 30) then
            let r := issueRunExit fetched1 (page + 1) maxPages hasNext1
            { r with pagesRequested := 1 }
          else
            let r := fetchRepoIssuesGo since maxPages rest (page + 1) fetched1 hasNext1
            { r with pagesRequested := r.pagesRequested + 1 }
    else issueRunExit fetched page maxPages hasNext

/-- Embeds one `fetchRepoIssues` call: `maxPages = 5`, page counter 0,
`hasNextPage = true`, running count seeded from the checkpoint
(`checkpoint.issues?.[repo.name]?.count || 0`). -/
def fetchRepoIssues (since : Option Int) (script : List IssuePage)
    (cpCount : Nat) : IssueRun :=
  fetchRepoIssuesGo since 5 script 0 cpCount true

/-- Rate-limited failure as the spec words it: HTTP 403 or 429 together
with an explicit zero-remaining-quota header. Stated from the spec, to
be compared with the classification the code performs. -/
def specRateLimited (e : APIError) : Prop :=
  (e.status = some 403 ∨ e.status = some 429) ∧
    e.ratelimitRemaining = some "0"

/-- Retryable-transient failure as the spec words it: a 5xx status, a
429 without the zero-quota header, or no HTTP status at all. Stated
from the spec, to be compared with the classification the code
performs. -/
def specRetryableTransient (e : APIError) : Prop :=
  (∃ s, e.status = some s ∧ 500 ≤ s) ∨
    (e.status = some 429 ∧ e.ratelimitRemaining ≠ some "0") ∨
    e.status = none

/-- A plain 503 failure with no rate-limit headers. -/
def e503 : APIError :=
  { status := some 503, ratelimitRemaining := none, ratelimitReset := none }

/-- A 429 with the zero-remaining header and no reset header. -/
def e429Zero : APIError :=
  { status := some 429, ratelimitRemaining := some "0", ratelimitReset := none }

/-- A rate-limited 429 whose reset timestamp (1 s epoch) is already in
the past at the times used below. -/
def eResetPast : APIError :=
  { status := some 429, ratelimitRemaining := some "0", ratelimitReset := some 1 }

/-- A rate-limited 403 whose reset timestamp (2 s epoch) is still in
the future at the times used below. -/
def eResetFuture : APIError :=
  { status := some 403, ratelimitRemaining := some "0", ratelimitReset := some 2 }

/-- A checkpoint written by a run for a different organization, one
hour stale at the times used below. -/
def cpForeignStale : Checkpoint :=
  { org := some "other-org", reposEndCursor := some "CURSOR123",
    reposCount := some 42, timestamp := some 0 }

/-- Per-item outcome used for the batch-scheduler witness: item 3 of
five fails, the rest succeed. -/
def f5 : Nat → Except String Nat :=
  fun n => if n = 3 then Except.error "boom" else Except.ok n

/-- Issue node with a given number and creation time. -/
def mkIssue (n : Nat) (c : Int) : IssueNode :=
  { number := n, title := "t", state := "OPEN", createdAt := c,
    updatedAt := 100, closedAt := none, authorLogin := none, labels := [] }

/-- A full page of 30 issues, all created at time 100. -/
def issue30 : List IssueNode := (List.range 30).map (fun n => mkIssue n 100)

/-- A full page reporting that more pages exist. -/
def fullPage : IssuePage :=
  { found := true, nodes := issue30, hasNextPage := true, endCursor := some "c" }

/-- A full page reporting that no more pages exist. -/
def finalPage : IssuePage :=
  { found := true, nodes := issue30, hasNextPage := false, endCursor := some "c" }

/-- A full page on which only the 10 newest issues pass a since filter
at time 100, while the server still reports more pages. -/
def mixedPage : IssuePage :=
  { found := true,
    nodes := (List.range 30).map (fun n => mkIssue n (if n < 10 then 200 else 0)),
    hasNextPage := true, endCursor := some "c" }

/-- A page with no issues at all, while the server still reports more
pages. -/
def emptyPage : IssuePage :=
  { found := true, nodes := [], hasNextPage := true, endCursor := some "c" }

/-- Last upsert document a batch of upserts writes at a key, if any
(the later of two writes to the same key wins). -/
def lastDocFor {α κ δ : Type} [DecidableEq κ] (key : α → κ) (doc : α → δ) :
    List α → κ → Option δ
  | [], _ => none
  | a :: rest, k =>
    match lastDocFor key doc rest k with
    | some d => some d
    | none => if key a = k then some (doc a) else none

/-- Fetch-action environment for the failing-run witness: the issue
phase surfaces an error while a checkpoint file exists. -/
def envFail : FetchEnv :=
  { mongoUriPresent := true, connectOk := true, repoFetch := Except.ok 3,
    issueFetch := Except.error "db down", checkpointExists := true }

/-- Fetch-action environment for the successful-run witness. -/
def envOk : FetchEnv :=
  { mongoUriPresent := true, connectOk := true, repoFetch := Except.ok 3,
    issueFetch := Except.ok 9, checkpointExists := true }

/-- Claim C4: for every retry attempt number n in 0, 1, 2 the computed
exponential backoff delay equals 3 ^ n × 1000 ms, i.e. 1000 ms, 3000 ms
and 9000 ms, strictly increasing with the attempt number; this holds in
both API-client implementations. -/
theorem backoff_delay_values :
    (∀ n : Nat, GitHubAPIWithRetries.calculateBackoffDelay n = 3 ^ n * 1000) ∧
    (∀ n : Nat, GitHubAPI.calculateBackoffDelay n = 3 ^ n * 1000) ∧
    GitHubAPIWithRetries.calculateBackoffDelay 0 = 1000 ∧
    GitHubAPIWithRetries.calculateBackoffDelay 1 = 3000 ∧
    GitHubAPIWithRetries.calculateBackoffDelay 2 = 9000 ∧
    GitHubAPIWithRetries.calculateBackoffDelay 0 <
      GitHubAPIWithRetries.calculateBackoffDelay 1 ∧
    GitHubAPIWithRetries.calculateBackoffDelay 1 <
      GitHubAPIWithRetries.calculateBackoffDelay 2 :=
  ⟨fun _ => rfl, fun _ => rfl, by decide, by decide, by decide, by decide, by decide⟩

/-- Claim C1: the claim says a checkpoint for a different organization
or older than 1 hour is treated as absent and never merged into the
run. The repository's own resume rule (`shouldResumeFromCheckpoint`)
agrees with the claim and rejects the checkpoint below, yet
`fetchRepositories` merges that same checkpoint's saved cursor and
count into its pagination state: requesting org "acme" at a time when
the foreign, one-hour-stale checkpoint fails the rule, the run still
starts from cursor "CURSOR123" with 42 repositories already counted. -/
theorem checkpoint_merged_despite_failing_resume_rule :
    CheckpointManager.shouldResumeFromCheckpoint (some cpForeignStale) "acme" 100000000 = false ∧
    fetchRepositoriesInit "acme" cpForeignStale =
      { endCursor := some "CURSOR123", fetched := 42, resumeLogged := false } := by
  decide

/-- Claim C2: a request failing with a retryable-transient error on
every attempt is retried exactly 3 times after the initial attempt
(backoff sleeps 1000 ms, 3000 ms, 9000 ms), the error of the 4th
consecutive failure is surfaced, and no 5th attempt is made (any
further scripted outcomes are never consumed); this holds for the
retry loop of `fetch.js`, for the one in `src/github/api.js`, and for
`fetchWithRateLimit` in `src/utils/request.js`. -/
theorem retry_budget_is_three (e : APIError) (rest : List Outcome) (now : Int)
    (hRL : GitHubAPIWithRetries.isRateLimited e = false)
    (hRetry : GitHubAPIWithRetries.isRetryableError e = true)
    (hRL2 : GitHubAPI.isRateLimited e = false)
    (hRetry2 : GitHubAPI.isRetryableError e = true) :
    GitHubAPIWithRetries.requestWithRetry now (List.replicate 4 (Outcome.err e) ++ rest) 0 =
      { result := some (Except.error e), sleeps := [1000, 3000, 9000], attempts := 4 } ∧
    GitHubAPI.makeRequestWithRetry now (List.replicate 4 (Outcome.err e) ++ rest) 0 =
      { result := some (Except.error e), sleeps := [1000, 3000, 9000], attempts := 4 } ∧
    fetchWithRateLimit now (List.replicate 4 (Outcome.err e) ++ rest) =
      { result := some (Except.error e), sleeps := [1000, 3000, 9000], attempts := 4 } := by
  refine ⟨?_, ?_, ?_⟩
  · simp [GitHubAPIWithRetries.requestWithRetry, retryLoop, hRL, hRetry, MAX_RETRIES,
      GitHubAPIWithRetries.calculateBackoffDelay, List.replicate]
  · simp [GitHubAPI.makeRequestWithRetry, retryLoop, hRL2, hRetry2,
      GitHubAPIWithRetries.calculateBackoffDelay, List.replicate]
  · simp [fetchWithRateLimit, fetchWithRateLimitGo, List.replicate]

/-- Witness for C2 at a concrete 503: four consecutive 503 responses
produce exactly the three backoff sleeps and surface the error. -/
theorem retry_budget_is_three_witness :
    GitHubAPIWithRetries.requestWithRetry 0 (List.replicate 4 (Outcome.err e503) ++ []) 0 =
      { result := some (Except.error e503), sleeps := [1000, 3000, 9000], attempts := 4 } ∧
    GitHubAPI.makeRequestWithRetry 0 (List.replicate 4 (Outcome.err e503) ++ []) 0 =
      { result := some (Except.error e503), sleeps := [1000, 3000, 9000], attempts := 4 } ∧
    fetchWithRateLimit 0 (List.replicate 4 (Outcome.err e503) ++ []) =
      { result := some (Except.error e503), sleeps := [1000, 3000, 9000], attempts := 4 } :=
  retry_budget_is_three e503 [] 0 (by decide) (by decide) (by decide) (by decide)

/-- Counterexample to C3 as stated: the claim asserts the client sleeps
at least (reset × 1000 − now) + 1000 ms before retrying whenever the
rate-limited error carries a reset header. At now = 1500 ms with reset
header 1 (epoch seconds), that bound is (1000 − 1500) + 1000 = 500 ms,
yet the code computes wait = −500, skips the sleep entirely (0 ms), and
retries at once. -/
theorem rate_limit_sleep_below_claimed_bound :
    GitHubAPIWithRetries.isRateLimited eResetPast = true ∧
    eResetPast.ratelimitReset = some 1 ∧
    GitHubAPIWithRetries.handleRateLimit eResetPast 1500 = 0 ∧
    ((1 : Int) * 1000 - 1500) + 1000 = 500 ∧
    GitHubAPIWithRetries.requestWithRetry 1500
        [Outcome.err eResetPast, Outcome.ok none none] 0 =
      { result := some (Except.ok ()), sleeps := [0], attempts := 2 } ∧
    ¬ ((500 : Int) ≤ 0) := by
  refine ⟨by decide, by decide, by decide, by decide, by decide, by decide⟩

/-- Claim C3 (amended): when the rate-limited error carries a reset
header whose time is still in the future (reset × 1000 > now), the
client sleeps exactly (reset × 1000 − now) + 1000 ms; when the reset
time has already passed it does not sleep at all; with no reset header
it sleeps a fixed 60 s; and in every case the retry reuses the same
attempt counter, so any number n of consecutive rate-limited failures
is retried without consuming the 3-retry transient budget. -/
theorem rate_limit_wait_and_unbounded_retry :
    (∀ (e : APIError) (now : Int) (reset : Nat),
      e.ratelimitReset = some reset → 0 < (reset : Int) * 1000 - now →
      GitHubAPIWithRetries.handleRateLimit e now = ((reset : Int) * 1000 - now) + 1000) ∧
    (∀ (e : APIError) (now : Int) (reset : Nat),
      e.ratelimitReset = some reset → (reset : Int) * 1000 - now ≤ 0 →
      GitHubAPIWithRetries.handleRateLimit e now = 0) ∧
    (∀ (e : APIError) (now : Int),
      e.ratelimitReset = none → GitHubAPIWithRetries.handleRateLimit e now = 60000) ∧
    (∀ (n : Nat) (now : Int) (e : APIError) (rest : List Outcome) (retry : Nat),
      GitHubAPIWithRetries.isRateLimited e = true →
      GitHubAPIWithRetries.requestWithRetry now
          (List.replicate n (Outcome.err e) ++ rest) retry =
        { result := (GitHubAPIWithRetries.requestWithRetry now rest retry).result,
          sleeps := List.replicate n (GitHubAPIWithRetries.handleRateLimit e now) ++
            (GitHubAPIWithRetries.requestWithRetry now rest retry).sleeps,
          attempts := (GitHubAPIWithRetries.requestWithRetry now rest retry).attempts + n }) := by
  refine ⟨?_, ?_, ?_, ?_⟩
  · intro e now reset hr hpos
    simp only [GitHubAPIWithRetries.handleRateLimit, hr, if_pos hpos]
  · intro e now reset hr hnonpos
    simp only [GitHubAPIWithRetries.handleRateLimit, hr]
    rw [if_neg (by omega)]
  · intro e now hr
    simp only [GitHubAPIWithRetries.handleRateLimit, hr]
  · intro n now e rest retry hRL
    induction n with
    | zero => simp
    | succ n ih =>
      simp only [List.replicate_succ, List.cons_append,
        GitHubAPIWithRetries.requestWithRetry, retryLoop, hRL, if_pos] at ih ⊢
      simp only [List.append_eq]
      rw [ih]
      simp [Nat.add_assoc, Nat.add_comm 1 n]

theorem upsertMany_apply {α κ δ : Type} [DecidableEq κ] (key : α → κ) (doc : α → δ) :
    ∀ (page : List α) (s : κ → Option δ) (q : κ),
      upsertMany key doc s page q =
        match lastDocFor key doc page q with
        | some d => some d
        | none => s q
  | [], _, _ => rfl
  | a :: rest, s, q => by
    have ih := upsertMany_apply key doc rest (upsertOne (key a) (doc a) s) q
    simp only [upsertMany, List.foldl_cons] at ih
    simp only [upsertMany, List.foldl_cons]
    rw [ih]
    cases h : lastDocFor key doc rest q with
    | some d => simp [lastDocFor, h]
    | none =>
      by_cases hk : q = key a
      · subst hk
        simp [lastDocFor, h, upsertOne]
      · simp [lastDocFor, h, upsertOne, hk, Ne.symm hk]

theorem upsertMany_idem {α κ δ : Type} [DecidableEq κ] (key : α → κ) (doc : α → δ)
    (page : List α) (s : κ → Option δ) :
    upsertMany key doc (upsertMany key doc s page) page = upsertMany key doc s page := by
  funext q
  simp only [upsertMany_apply]
  cases h : lastDocFor key doc page q <;> simp [h]

theorem isRateLimited_iff (e : APIError) :
    GitHubAPIWithRetries.isRateLimited e = true ↔ specRateLimited e := by
  rcases e with ⟨st, rem, rst⟩
  simp [GitHubAPIWithRetries.isRateLimited, specRateLimited]

theorem api_isRateLimited_iff (e : APIError) :
    GitHubAPI.isRateLimited e = true ↔
      e.status = some 403 ∧ e.ratelimitRemaining = some "0" := by
  rcases e with ⟨st, rem, rst⟩
  simp [GitHubAPI.isRateLimited]

theorem isRetryableError_iff (e : APIError) :
    GitHubAPIWithRetries.isRetryableError e = true ↔
      (e.status = none ∨ ∃ s, e.status = some s ∧ (500 ≤ s ∨ s = 429)) := by
  rcases e with ⟨st, rem, rst⟩
  cases st with
  | none => simp [GitHubAPIWithRetries.isRetryableError]
  | some s =>
    simp [GitHubAPIWithRetries.isRetryableError]
    omega

theorem specRetryable_iff (e : APIError) :
    specRetryableTransient e ↔
      (GitHubAPIWithRetries.isRetryableError e = true ∧
        GitHubAPIWithRetries.isRateLimited e = false) := by
  rcases e with ⟨st, rem, rst⟩
  cases st with
  | none =>
    simp [specRetryableTransient, GitHubAPIWithRetries.isRetryableError,
      GitHubAPIWithRetries.isRateLimited]
  | some s =>
    by_cases hrem : rem = some "0" <;>
      simp [specRetryableTransient, GitHubAPIWithRetries.isRetryableError,
        GitHubAPIWithRetries.isRateLimited, hrem] <;> omega

theorem api_vs_fetch_rateLimited (e : APIError) :
    GitHubAPI.isRateLimited e =
      (GitHubAPIWithRetries.isRateLimited e && !(decide (e.status = some 429))) := by
  rcases e with ⟨st, rem, rst⟩
  cases st with
  | none => simp [GitHubAPI.isRateLimited, GitHubAPIWithRetries.isRateLimited]
  | some s =>
    by_cases h4 : s = 429
    · subst h4
      simp [GitHubAPI.isRateLimited, GitHubAPIWithRetries.isRateLimited]
    · have h4b : (s == 429) = false := by simp [h4]
      have h4c : (decide (some s = some (429 : Nat))) = false := by simp [h4]
      simp [GitHubAPI.isRateLimited, GitHubAPIWithRetries.isRateLimited, h4b, h4c]
      exact fun _ _ => h4

/-- Witness for C3 (amended) at concrete inputs: a future reset (2 s
epoch, now = 500 ms) sleeps 2500 ms; a past reset sleeps 0 ms; no reset
header sleeps 60 s; and two consecutive rate-limited 429s followed by a
success take 2 extra attempts with two 60 s sleeps while the retry
counter stays at 3. -/
theorem rate_limit_wait_and_unbounded_retry_witness :
    GitHubAPIWithRetries.handleRateLimit eResetFuture 500 = 2500 ∧
    GitHubAPIWithRetries.handleRateLimit eResetPast 1500 = 0 ∧
    GitHubAPIWithRetries.handleRateLimit e429Zero 77 = 60000 ∧
    GitHubAPIWithRetries.requestWithRetry 0
        (List.replicate 2 (Outcome.err e429Zero) ++ [Outcome.ok none none]) 3 =
      { result := some (Except.ok ()), sleeps := [60000, 60000], attempts := 3 } := by
  have h := rate_limit_wait_and_unbounded_retry
  refine ⟨?_, ?_, ?_, ?_⟩
  · have := h.1 eResetFuture 500 2 (by decide) (by decide)
    simpa using this
  · exact h.2.1 eResetPast 1500 1 (by decide) (by decide)
  · exact h.2.2.1 e429Zero 77 (by decide)
  · have := h.2.2.2 2 0 e429Zero [Outcome.ok none none] 3 (by decide)
    rw [this]
    decide

/-- Counterexample to C5 as stated: the claim asserts the classification
is the same in both API-client implementations, but on a 429 with the
zero-remaining-quota header the `fetch.js` client classifies
rate-limited while the `src/github/api.js` client (which tests status
403 only) classifies retryable-transient. -/
theorem classification_divergence_between_clients :
    GitHubAPIWithRetries.classify e429Zero = ErrorClass.rateLimited ∧
    GitHubAPI.classify e429Zero = ErrorClass.retryableTransient ∧
    GitHubAPIWithRetries.classify e429Zero ≠ GitHubAPI.classify e429Zero := by
  decide

/-- Claim C5 (amended): the `fetch.js` client classifies exactly as the
claim states — rate-limited iff status 403 or 429 with the zero-quota
header, retryable-transient iff 5xx, 429 without that header, or no
status, fatal otherwise (e.g. 404, 422) — and the `src/github/api.js`
client agrees with it on every error except a 429 carrying the
zero-quota header, which it treats as retryable-transient instead of
rate-limited. -/
theorem classification_characterization (e : APIError) :
    (GitHubAPIWithRetries.classify e = ErrorClass.rateLimited ↔ specRateLimited e) ∧
    (GitHubAPIWithRetries.classify e = ErrorClass.retryableTransient ↔
      specRetryableTransient e) ∧
    (GitHubAPIWithRetries.classify e = ErrorClass.fatal ↔
      ¬ specRateLimited e ∧ ¬ specRetryableTransient e) ∧
    (GitHubAPI.classify e = GitHubAPIWithRetries.classify e ↔
      ¬ (e.status = some 429 ∧ e.ratelimitRemaining = some "0")) := by
  refine ⟨?_, ?_, ?_, ?_⟩
  · rw [← isRateLimited_iff e]
    cases hb : GitHubAPIWithRetries.isRateLimited e <;>
      cases hb2 : GitHubAPIWithRetries.isRetryableError e <;>
        simp [GitHubAPIWithRetries.classify, hb, hb2]
  · rw [specRetryable_iff e]
    cases hb : GitHubAPIWithRetries.isRateLimited e <;>
      cases hb2 : GitHubAPIWithRetries.isRetryableError e <;>
        simp [GitHubAPIWithRetries.classify, hb, hb2]
  · rw [← isRateLimited_iff e, specRetryable_iff e]
    cases hb : GitHubAPIWithRetries.isRateLimited e <;>
      cases hb2 : GitHubAPIWithRetries.isRetryableError e <;>
        simp [GitHubAPIWithRetries.classify, hb, hb2]
  · by_cases hq : e.status = some 429 ∧ e.ratelimitRemaining = some "0"
    · have hb : GitHubAPIWithRetries.isRateLimited e = true :=
        (isRateLimited_iff e).mpr ⟨Or.inr hq.1, hq.2⟩
      have hb2 : GitHubAPIWithRetries.isRetryableError e = true :=
        (isRetryableError_iff e).mpr (Or.inr ⟨429, hq.1, Or.inr rfl⟩)
      have ha : GitHubAPI.isRateLimited e = false := by
        rw [api_vs_fetch_rateLimited e, hq.1]
        simp
      have hb2a : GitHubAPI.isRetryableError e = true := hb2
      simp [GitHubAPIWithRetries.classify, GitHubAPI.classify, hb, hb2a, ha, hq]
    · simp only [hq, not_false_iff, iff_true]
      cases hb : GitHubAPIWithRetries.isRateLimited e with
      | true =>
        rcases (isRateLimited_iff e).mp hb with ⟨h43, hrem⟩
        rcases h43 with h403 | h429
        · have ha : GitHubAPI.isRateLimited e = true := by
            rw [api_vs_fetch_rateLimited e, hb, h403]
            simp
          simp [GitHubAPIWithRetries.classify, GitHubAPI.classify, hb, ha]
        · exact absurd ⟨h429, hrem⟩ hq
      | false =>
        have ha : GitHubAPI.isRateLimited e = false := by
          rw [api_vs_fetch_rateLimited e, hb]
          simp
        simp [GitHubAPIWithRetries.classify, GitHubAPI.classify, hb, ha,
          GitHubAPI.isRetryableError, GitHubAPIWithRetries.isRetryableError]

/-- Claim C6: the checkpoint file is deleted exactly when the whole run
(connection, repository fetch, then issue fetch) completes with no
surfaced error and the file exists; any surfaced failure leaves the
checkpoint file intact and sets the process exit code to 1, while a
successful run exits 0 with no checkpoint file remaining. -/
theorem checkpoint_cleared_iff_run_succeeds (env : FetchEnv) :
    ((handleFetchAction env).checkpointCleared = true ↔
      runSucceeded env = true ∧ env.checkpointExists = true) ∧
    ((handleFetchAction env).exitCode = 0 ↔ runSucceeded env = true) ∧
    (runSucceeded env = false →
      (handleFetchAction env).checkpointAfter = env.checkpointExists ∧
      (handleFetchAction env).exitCode = 1) ∧
    (runSucceeded env = true → (handleFetchAction env).checkpointAfter = false) := by
  rcases env with ⟨mu, co, rf, isf, ce⟩
  cases mu <;> cases co <;> cases rf <;> cases isf <;> cases ce <;>
    simp [handleFetchAction, runSucceeded, Except.toBool]

/-- Witness for C6: with a checkpoint file present, a run whose issue
phase surfaces an error keeps the file and exits 1, while a fully
successful run deletes the file and exits 0. -/
theorem checkpoint_cleared_iff_run_succeeds_witness :
    (handleFetchAction envFail).checkpointAfter = true ∧
    (handleFetchAction envFail).exitCode = 1 ∧
    (handleFetchAction envOk).checkpointCleared = true ∧
    (handleFetchAction envOk).checkpointAfter = false ∧
    (handleFetchAction envOk).exitCode = 0 := by
  have hf := checkpoint_cleared_iff_run_succeeds envFail
  have ho := checkpoint_cleared_iff_run_succeeds envOk
  refine ⟨?_, ?_, ?_, ?_, ?_⟩
  · exact ((hf.2.2.1 (by decide)).1).trans (by decide)
  · exact (hf.2.2.1 (by decide)).2
  · exact (ho.1).mpr ⟨by decide, by decide⟩
  · exact ho.2.2.2 (by decide)
  · exact (ho.2.1).mpr (by decide)

/-- Claim C9: persisting the same page twice through the upsert sink
yields exactly the stored state of persisting it once — repository
pages are keyed by (org, name) and issue pages by (repo, number), every
stored field is written by the page's own `$set` clause, so a re-run
with the same page creates no new documents and changes no field
values. -/
theorem upsert_pages_idempotent :
    (∀ (org : String) (s : String × String → Option RepoDoc) (page : List RepoNode),
      applyRepoPage org (applyRepoPage org s page) page = applyRepoPage org s page) ∧
    (∀ (repoId : String) (s : String × Nat → Option IssueDoc) (page : List IssueNode),
      applyIssuePage repoId (applyIssuePage repoId s page) page = applyIssuePage repoId s page) :=
  ⟨fun _ s page => upsertMany_idem _ _ page s,
   fun _ s page => upsertMany_idem _ _ page s⟩

theorem chunksGo_flatten {α : Type} (bsz : Nat) :
    ∀ (fuel : Nat) (l : List α), (chunksGo bsz fuel l).flatten = l
  | _, [] => by simp [chunksGo]
  | 0, _ :: _ => by simp [chunksGo]
  | fuel + 1, a :: rest => by
    simp only [chunksGo, List.flatten_cons]
    rw [chunksGo_flatten bsz fuel (rest.drop (bsz - 1))]
    simp [List.take_append_drop]

theorem settled_foldl {α ε β : Type} (f : α → Except ε β) :
    ∀ (cs : List (List α)) (acc : List (α × Except ε β)),
      cs.foldl (fun a b => a ++ settleBatch f b) acc = acc ++ settleBatch f cs.flatten
  | [], acc => by simp [settleBatch]
  | c :: cs, acc => by
    rw [List.foldl_cons, settled_foldl f cs, List.flatten_cons]
    simp [settleBatch, List.map_append, List.append_assoc]

theorem processItems_settledAll {α ε β : Type} (bsz : Nat) (f : α → Except ε β)
    (items : List α) :
    (chunks bsz items).foldl (fun acc batch => acc ++ settleBatch f batch) [] =
      settleBatch f items := by
  rw [settled_foldl]
  simp [chunks, chunksGo_flatten]

theorem okErr_length {α ε β : Type} :
    ∀ settled : List (α × Except ε β),
      (okSettles settled).length + (errSettles settled).length = settled.length
  | [] => rfl
  | p :: rest => by
    have ih := okErr_length rest
    rcases p with ⟨a, r⟩
    cases r <;>
      simp [okSettles, errSettles, List.filterMap_cons] at ih ⊢ <;> omega

theorem okSettles_settleBatch_length {α ε β : Type} (f : α → Except ε β) :
    ∀ items : List α,
      (okSettles (settleBatch f items)).length = items.countP (fun a => (f a).toBool)
  | [] => rfl
  | a :: rest => by
    have ih := okSettles_settleBatch_length f rest
    cases h : f a <;>
      simp [settleBatch, okSettles, List.filterMap_cons, List.countP_cons, h, ih,
        Except.toBool] at ih ⊢ <;> omega

theorem errSettles_settleBatch_length {α ε β : Type} (f : α → Except ε β) :
    ∀ items : List α,
      (errSettles (settleBatch f items)).length = items.countP (fun a => !(f a).toBool)
  | [] => rfl
  | a :: rest => by
    have ih := errSettles_settleBatch_length f rest
    cases h : f a <;>
      simp [settleBatch, errSettles, List.filterMap_cons, List.countP_cons, h, ih,
        Except.toBool] at ih ⊢ <;> omega

/-- Claim C7: with a positive batch size, the batch scheduler settles
every item to a terminal state (success and error counts sum to the
item count), reports counts equal to the actual per-item outcomes, and
returns the per-item error list itself — each item's outcome is exactly
its own function result, so no sibling's failure affects it or removes
it from the report. -/
theorem batch_scheduler_isolates_failures {α ε β : Type} (bsz : Nat)
    (f : α → Except ε β) (items : List α) (hbsz : 0 < bsz) :
    (BatchProcessor.processItems bsz f items).results = okSettles (settleBatch f items) ∧
    (BatchProcessor.processItems bsz f items).errors = errSettles (settleBatch f items) ∧
    (BatchProcessor.processItems bsz f items).successCount +
      (BatchProcessor.processItems bsz f items).errorCount = items.length ∧
    (BatchProcessor.processItems bsz f items).successCount =
      items.countP (fun a => (f a).toBool) ∧
    (BatchProcessor.processItems bsz f items).errorCount =
      items.countP (fun a => !(f a).toBool) := by
  have hs := processItems_settledAll bsz f items
  have h1 : (BatchProcessor.processItems bsz f items).results =
      okSettles (settleBatch f items) := by
    simp only [BatchProcessor.processItems, hs]
  have h2 : (BatchProcessor.processItems bsz f items).errors =
      errSettles (settleBatch f items) := by
    simp only [BatchProcessor.processItems, hs]
  have h4 : (BatchProcessor.processItems bsz f items).successCount =
      (okSettles (settleBatch f items)).length := by
    simp only [BatchProcessor.processItems, hs]
  have h5 : (BatchProcessor.processItems bsz f items).errorCount =
      (errSettles (settleBatch f items)).length := by
    simp only [BatchProcessor.processItems, hs]
  refine ⟨h1, h2, ?_, ?_, ?_⟩
  · rw [h4, h5, okErr_length]
    simp [settleBatch]
  · rw [h4, okSettles_settleBatch_length]
  · rw [h5, errSettles_settleBatch_length]

/-- Witness for C7 at the spec's example: a batch of 5 items in which
item 3 fails yields 4 successes, 1 error, the error list naming item 3,
and all 5 items settled. -/
theorem batch_scheduler_isolates_failures_witness :
    (BatchProcessor.processItems 5 f5 [1, 2, 3, 4, 5]).successCount = 4 ∧
    (BatchProcessor.processItems 5 f5 [1, 2, 3, 4, 5]).errorCount = 1 ∧
    (BatchProcessor.processItems 5 f5 [1, 2, 3, 4, 5]).errors = [(3, "boom")] ∧
    (BatchProcessor.processItems 5 f5 [1, 2, 3, 4, 5]).successCount +
      (BatchProcessor.processItems 5 f5 [1, 2, 3, 4, 5]).errorCount = 5 := by
  have h := batch_scheduler_isolates_failures 5 f5 [1, 2, 3, 4, 5] (by decide)
  refine ⟨?_, ?_, ?_, ?_⟩
  · rw [h.2.2.2.1]
    decide
  · rw [h.2.2.2.2]
    decide
  · rw [h.2.1]
    decide
  · rw [h.2.2.2.1, h.2.2.2.2]
    decide

theorem fetchRepoIssuesGo_hasNext_false (since : Option Int) (maxPages : Nat)
    (script : List IssuePage) (page fetched : Nat) :
    fetchRepoIssuesGo since maxPages script page fetched false =
      issueRunExit fetched page maxPages false := by
  cases script <;> rw [fetchRepoIssuesGo] <;> simp

theorem fetchRepoIssuesGo_pages_le (since : Option Int) (maxPages : Nat) :
    ∀ (script : List IssuePage) (page fetched : Nat) (hasNext : Bool),
      (fetchRepoIssuesGo since maxPages script page fetched hasNext).pagesRequested ≤
        maxPages - page
  | [], page, fetched, hasNext => by
    rw [fetchRepoIssuesGo]
    split
    · simp
    · simp [issueRunExit]
  | p :: rest, page, fetched, hasNext => by
    have ih := fetchRepoIssuesGo_pages_le since maxPages rest (page + 1)
      (fetched + (filterSince since p.nodes).length)
      (p.hasNextPage && decide (0 < (filterSince since p.nodes).length))
    rw [fetchRepoIssuesGo]
    split
    · next hc =>
      have hpage : page < maxPages := by
        have h2 := (Bool.and_eq_true _ _).mp hc
        exact of_decide_eq_true h2.2
      split
      · simp [issueRunExit]
        omega
      · dsimp only
        split
        · simp [issueRunExit]
          omega
        · simp only [IssueRun.mk.injEq]
          simp
          omega
    · simp [issueRunExit]

theorem fetchRepoIssuesGo_result (since : Option Int) (maxPages : Nat) :
    ∀ (script : List IssuePage) (page fetched : Nat) (hasNext : Bool),
      (fetchRepoIssuesGo since maxPages script page fetched hasNext).result =
        some (fetchRepoIssuesGo since maxPages script page fetched hasNext).fetched ∨
      ((fetchRepoIssuesGo since maxPages script page fetched hasNext).result = none ∧
        (fetchRepoIssuesGo since maxPages script page fetched hasNext).capLogged = false)
  | [], page, fetched, hasNext => by
    rw [fetchRepoIssuesGo]
    split
    · right
      simp
    · left
      simp [issueRunExit]
  | p :: rest, page, fetched, hasNext => by
    have ih := fetchRepoIssuesGo_result since maxPages rest (page + 1)
      (fetched + (filterSince since p.nodes).length)
      (p.hasNextPage && decide (0 < (filterSince since p.nodes).length))
    rw [fetchRepoIssuesGo]
    split
    · split
      · left
        simp [issueRunExit]
      · dsimp only
        split
        · left
          simp [issueRunExit]
        · rcases ih with h | h
          · left
            simpa using h
          · right
            simpa using h
    · left
      simp [issueRunExit]

/-- Claim C8: issue pagination requests at most 5 pages per repository;
a page whose has-more flag is false ends the run after that page with
the accumulated count returned; and whenever the "Max pages reached"
warning fires (cap reached with more pages remaining) the run still
returns its accumulated issue count normally rather than failing. -/
theorem issue_pagination_capped_at_five :
    (∀ (since : Option Int) (script : List IssuePage) (cp : Nat),
      (fetchRepoIssues since script cp).pagesRequested ≤ 5) ∧
    (∀ (since : Option Int) (p : IssuePage) (rest : List IssuePage) (cp : Nat),
      p.found = true → p.hasNextPage = false →
      (fetchRepoIssues since (p :: rest) cp).pagesRequested = 1 ∧
      (fetchRepoIssues since (p :: rest) cp).result =
        some (cp + (filterSince since p.nodes).length)) ∧
    (∀ (since : Option Int) (script : List IssuePage) (cp : Nat),
      (fetchRepoIssues since script cp).capLogged = true →
      (fetchRepoIssues since script cp).result =
        some (fetchRepoIssues since script cp).fetched) := by
  refine ⟨?_, ?_, ?_⟩
  · intro since script cp
    have := fetchRepoIssuesGo_pages_le since 5 script 0 cp true
    simpa [fetchRepoIssues] using this
  · intro since p rest cp hfound hnext
    rw [fetchRepoIssues, fetchRepoIssuesGo]
    rw [if_pos (by decide)]
    rw [if_neg (by simp [hfound])]
    dsimp only
    by_cases hbrk : ((filterSince since p.nodes).length = 0 ∨
        (since.isSome ∧ (filterSince since p.nodes).length < 30))
    · rw [if_pos hbrk]
      simp [issueRunExit]
    · rw [if_neg hbrk]
      rw [hnext]
      rw [show (false && decide (0 < (filterSince since p.nodes).length)) = false from rfl]
      rw [fetchRepoIssuesGo_hasNext_false]
      simp [issueRunExit]
  · intro since script cp hcap
    rcases fetchRepoIssuesGo_result since 5 script 0 cp true with h | h
    · simpa [fetchRepoIssues] using h
    · rw [fetchRepoIssues] at hcap
      rw [h.2] at hcap
      cases hcap

/-- Witness for C8: six scripted full pages stop after exactly 5
requests with the cap warning logged and 150 issues returned, while a
page with has-more false stops after 1 request returning its 30
issues. -/
theorem issue_pagination_capped_at_five_witness :
    (fetchRepoIssues none (List.replicate 6 fullPage) 0).pagesRequested ≤ 5 ∧
    (fetchRepoIssues none (finalPage :: [fullPage]) 0).pagesRequested = 1 ∧
    (fetchRepoIssues none (finalPage :: [fullPage]) 0).result = some 30 ∧
    (fetchRepoIssues none (List.replicate 6 fullPage) 0).capLogged = true ∧
    (fetchRepoIssues none (List.replicate 6 fullPage) 0).result =
      some (fetchRepoIssues none (List.replicate 6 fullPage) 0).fetched := by
  have h := issue_pagination_capped_at_five
  have h2 := h.2.1 none finalPage [fullPage] 0 (by decide) (by decide)
  refine ⟨h.1 none (List.replicate 6 fullPage) 0, h2.1, ?_, by decide,
    h.2.2 none (List.replicate 6 fullPage) 0 (by decide)⟩
  rw [h2.2]
  decide

/-- Claim C10: from any in-cap state of the issue pagination loop, when
a since filter is active, a found page whose post-filter count is
positive but below the page size 30 is the last page requested — even
when the response's has-more flag is true — and its filtered items are
still counted into the returned total; and with or without a filter, a
page left empty after filtering ends pagination regardless of the
has-more flag, returning the count accumulated so far. -/
theorem since_filter_early_termination :
    (∀ (s : Int) (p : IssuePage) (rest : List IssuePage) (page fetched : Nat),
      page < 5 → p.found = true →
      0 < (filterSince (some s) p.nodes).length →
      (filterSince (some s) p.nodes).length < 30 →
      (fetchRepoIssuesGo (some s) 5 (p :: rest) page fetched true).pagesRequested = 1 ∧
      (fetchRepoIssuesGo (some s) 5 (p :: rest) page fetched true).result =
        some (fetched + (filterSince (some s) p.nodes).length)) ∧
    (∀ (since : Option Int) (p : IssuePage) (rest : List IssuePage) (page fetched : Nat),
      page < 5 → p.found = true → filterSince since p.nodes = [] →
      (fetchRepoIssuesGo since 5 (p :: rest) page fetched true).pagesRequested = 1 ∧
      (fetchRepoIssuesGo since 5 (p :: rest) page fetched true).result = some fetched) := by
  refine ⟨?_, ?_⟩
  · intro s p rest page fetched hpage hfound hpos hlt
    rw [fetchRepoIssuesGo]
    rw [if_pos (by simp [hpage])]
    rw [if_neg (by simp [hfound])]
    dsimp only
    rw [if_pos (Or.inr ⟨rfl, hlt⟩)]
    simp [issueRunExit]
  · intro since p rest page fetched hpage hfound hnil
    rw [fetchRepoIssuesGo]
    rw [if_pos (by simp [hpage])]
    rw [if_neg (by simp [hfound])]
    dsimp only
    rw [if_pos (Or.inl (by simp [hnil]))]
    simp [issueRunExit, hnil]

/-- Witness for C10: on a page where 10 of 30 issues pass a since
filter and the server reports more pages, pagination stops after that
single request returning 10 issues; and a page left empty after
filtering stops after a single request returning the prior count. -/
theorem since_filter_early_termination_witness :
    (fetchRepoIssuesGo (some 100) 5 [mixedPage, fullPage] 0 0 true).pagesRequested = 1 ∧
    (fetchRepoIssuesGo (some 100) 5 [mixedPage, fullPage] 0 0 true).result = some 10 ∧
    (fetchRepoIssuesGo none 5 [emptyPage, fullPage] 0 7 true).pagesRequested = 1 ∧
    (fetchRepoIssuesGo none 5 [emptyPage, fullPage] 0 7 true).result = some 7 := by
  have ha := since_filter_early_termination.1 100 mixedPage [fullPage] 0 0
    (by decide) (by decide) (by decide) (by decide)
  have hb := since_filter_early_termination.2 none emptyPage [fullPage] 0 7
    (by decide) (by decide) (by decide)
  refine ⟨ha.1, ?_, hb.1, hb.2⟩
  rw [ha.2]
  decide

end OrgPulse
